import Mathlib

/-!
Verification development for the OdinnFB device-status service.

The repository contains two iterations of the same Flask app:

* `src/app.py` — the basic variant: RPi.GPIO PWM, file-persisted messages
  (`messages.json`), no brightness clamping, no message-count limit on
  retrieval, track selection checks file existence.
* `src/FUNCTIONAL 24.11 15:35/app.py` — the FUNCTIONAL variant: lgpio PWM
  with RPi.GPIO fallback and dry-run degradation, in-memory state guarded by
  a lock, brightness clamped to [0,255], last-200 message retrieval, no
  validation beyond falsiness on message text and track.

The embedding below models each route handler as a pure function from an
explicit request body (`Option` for possibly-missing JSON fields), explicit
state, and explicit oracles for the outcomes of external effects (hardware
calls, file I/O).  HTTP responses are modelled as a status code plus an
ordered association list of JSON fields, mirroring the `jsonify({...})`
dictionaries of the source.  Python floats are modelled as rationals.
-/

/-- A stored message: `{text, timestamp}` dictionaries in both variants. -/
structure Message where
  text : String
  timestamp : String
deriving DecidableEq

/-- JSON values appearing in the responses of the two apps. -/
inductive JVal where
  | jstr (s : String)
  | jint (n : Int)
  | jrat (q : Rat)
  | jbool (b : Bool)
  | jnull
  | jmsg (m : Message)
  | jmsgs (l : List Message)
deriving DecidableEq

/-- An HTTP response: status code and JSON body as an ordered field list. -/
structure HttpResp where
  code : Nat
  body : List (String × JVal)
deriving DecidableEq

namespace Basic

/-- Python `str.strip()` whitespace predicate (ASCII whitespace). -/
def py_isspace (c : Char) : Bool :=
  c = ' ' || c = '\t' || c = '\n' || c = '\r' || c = '\x0b' || c = '\x0c'

/-- Python `str.strip()`: drop whitespace from both ends. -/
def strip (s : String) : String :=
  String.mk (((s.data.dropWhile py_isspace).reverse.dropWhile py_isspace).reverse)

/-- A parsed `messages.json` document: `data.get('messages', [])` reads an
optional `messages` field. -/
structure MsgDoc where
  messages : Option (List Message)
deriving DecidableEq

/-- The possible states of the `messages.json` file as seen by
`load_messages`: absent (`os.path.exists` false), unreadable (open raises),
malformed (`json.load` raises), or a parsed JSON document. -/
inductive FileState where
  | absent
  | unreadable
  | malformed
  | parsed (doc : MsgDoc)
deriving DecidableEq

/-- `load_messages` (src/app.py lines 24-33): returns `[]` when the file is
absent, returns `[]` on any exception while opening or parsing, otherwise
`data.get('messages', [])`. -/
def load_messages : FileState → List Message
  | FileState.absent => []
  | FileState.unreadable => []
  | FileState.malformed => []
  | FileState.parsed doc => doc.messages.getD []

/-- `set_brightness` (src/app.py lines 54-62): `brightness = int(data.get('value', 0))`,
`duty_cycle = (brightness / 255) * 100` with NO clamping, duty is passed to
`pwm.ChangeDutyCycle`, response is `{'status': 'ok'}`.  The second component
is the duty cycle handed to the PWM driver. -/
def set_brightness (value? : Option Int) : HttpResp × Rat :=
  let brightness := value?.getD 0
  let duty_cycle := ((brightness : Int) : Rat) / 255 * 100
  (⟨200, [("status", JVal.jstr "ok")]⟩, duty_cycle)

/-- `add_message` (src/app.py lines 103-122): `text = data.get('text', '').strip()`;
empty or longer than 100 characters is rejected with 400 and nothing is
touched; otherwise the loaded list plus the new message is saved
(`saveOk` is the outcome of `save_messages`); a failed save yields 500 and
leaves the file as it was. -/
def add_message (disk : FileState) (saveOk : Bool) (now : String)
    (text? : Option String) : HttpResp × FileState :=
  let text := strip (text?.getD "")
  if text = "" || text.length > 100 then
    (⟨400, [("status", JVal.jstr "error"), ("message", JVal.jstr "Invalid message")]⟩, disk)
  else
    let msg : Message := ⟨text, now⟩
    let messages := load_messages disk ++ [msg]
    if saveOk then
      (⟨200, [("status", JVal.jstr "ok"), ("message", JVal.jmsg msg)]⟩,
       FileState.parsed ⟨some messages⟩)
    else
      (⟨500, [("status", JVal.jstr "error"), ("message", JVal.jstr "Failed to save")]⟩, disk)

/-- `get_messages` (src/app.py lines 97-101): returns ALL stored messages
(no limit). -/
def get_messages (disk : FileState) : HttpResp :=
  ⟨200, [("messages", JVal.jmsgs (load_messages disk))]⟩

/-- `set_track` (src/app.py lines 74-95): if the track file exists it is
loaded and played (`playResult` is the outcome of load/play; an exception
gives 500), otherwise 404.  This variant keeps no stored track state. -/
def set_track (fileExists : Bool) (playResult : Except String Unit)
    (_track : String) : HttpResp :=
  if fileExists then
    match playResult with
    | Except.ok _ => ⟨200, [("status", JVal.jstr "ok")]⟩
    | Except.error e => ⟨500, [("status", JVal.jstr "error"), ("message", JVal.jstr e)]⟩
  else
    ⟨404, [("status", JVal.jstr "error"), ("message", JVal.jstr "Track not found")]⟩

end Basic

namespace Functional

/-- Outcomes of the three startup probes (FUNCTIONAL variant lines 45-90):
whether `import lgpio` succeeds, whether `lgpio.gpiochip_open` plus the
confirmation `tx_pwm` succeeds, and whether `import RPi.GPIO` plus pin setup
succeeds. -/
structure Probes where
  lgpioImport : Bool
  lgpioInit : Bool
  rpiInit : Bool
deriving DecidableEq

/-- The module-level driver flags and handles after startup:
`HAS_LGPIO`, `HAS_RPI_GPIO`, `chip`, `_pwm`. -/
structure DriverSel where
  hasLgpio : Bool
  hasRpiGpio : Bool
  chip : Option Unit
  pwm : Option Unit
deriving DecidableEq

/-- Startup driver selection (lines 45-90): `HAS_LGPIO` is set by the import
attempt, reset to `False` (with `chip = None`) if initialization raises; only
when `HAS_LGPIO` is false is RPi.GPIO probed, setting `HAS_RPI_GPIO` on
success.  Every probe failure is caught, so selection itself never raises. -/
def selectDriver (p : Probes) : DriverSel :=
  if p.lgpioImport then
    if p.lgpioInit then ⟨true, false, some (), none⟩
    else
      if p.rpiInit then ⟨false, true, none, some ()⟩
      else ⟨false, false, none, none⟩
  else
    if p.rpiInit then ⟨false, true, none, some ()⟩
    else ⟨false, false, none, none⟩

/-- The three PWM backends. -/
inductive Driver where
  | lgpio
  | rpiGpio
  | dryRun
deriving DecidableEq

/-- Which backend `set_pwm_duty_percent` dispatches to (lines 99-111):
lgpio when `HAS_LGPIO and chip is not None`, else RPi.GPIO when
`HAS_RPI_GPIO and _pwm is not None`, else dry-run. -/
def activeDriver (s : DriverSel) : Driver :=
  if s.hasLgpio && s.chip.isSome then Driver.lgpio
  else if s.hasRpiGpio && s.pwm.isSome then Driver.rpiGpio
  else Driver.dryRun

/-- The clamp on line 177: `value = max(0, min(255, value))`. -/
def clamp255 (v : Int) : Int := max 0 (min 255 v)

/-- The duty-cycle mapping of `set_brightness` (lines 177-178): clamp to
[0,255], then `(value / 255.0) * 100.0`. -/
def duty_percent (v : Int) : Rat := ((clamp255 v : Int) : Rat) / 255 * 100

/-- A single hardware PWM write (`lgpio.tx_pwm` / `_pwm.ChangeDutyCycle`),
which may raise; `hwFail` is the oracle for that failure.  On success it
returns the duty that reached the hardware. -/
def tx_pwm (hwFail : Bool) (duty : Rat) : Except String Rat :=
  if hwFail then Except.error "hardware write failed" else Except.ok duty

/-- `set_pwm_duty_percent` (lines 93-111): clamps the percent to [0,100],
dispatches on the active backend, and wraps each hardware call in
try/except, logging and swallowing the exception.  The outer `Except` is
what the caller observes: an `Except.error` would mean an exception escaped
this function.  The payload is the duty that reached hardware (`none` when
the write failed or in dry-run); lgpio receives `int(percent)` (truncation,
here on a nonnegative clamped value, i.e. floor). -/
def set_pwm_duty_percent (sel : DriverSel) (hwFail : Bool) (percent : Rat) :
    Except String (Option Rat) :=
  let p := max 0 (min 100 percent)
  if sel.hasLgpio && sel.chip.isSome then
    match tx_pwm hwFail ((p.floor : Int) : Rat) with
    | Except.ok d => Except.ok (some d)
    | Except.error _ => Except.ok none
  else if sel.hasRpiGpio && sel.pwm.isSome then
    match tx_pwm hwFail p with
    | Except.ok d => Except.ok (some d)
    | Except.error _ => Except.ok none
  else
    Except.ok none

/-- The in-memory `_state` dictionary (lines 143-149). -/
structure FState where
  brightness : Int
  volume : Int
  track : Option String
  messages : List Message
deriving DecidableEq

/-- The initial `_state`: brightness 0, volume 50, no track, no messages. -/
def initialState : FState := ⟨0, 50, none, []⟩

/-- `set_brightness` (lines 167-191): missing `value` gives 400 and no state
change; otherwise the value is clamped, the duty computed and applied via
`set_pwm_duty_percent`, the stored brightness updated, and a 200 response
with `status`, `value` and `duty` returned.  An exception escaping the body
(the `Except.error` branch) would give 500. -/
def set_brightness (sel : DriverSel) (hwFail : Bool) (st : FState)
    (value? : Option Int) : HttpResp × FState :=
  match value? with
  | none => (⟨400, [("status", JVal.jstr "error"), ("error", JVal.jstr "missing value")]⟩, st)
  | some raw =>
    let value := clamp255 raw
    let duty := ((value : Int) : Rat) / 255 * 100
    match set_pwm_duty_percent sel hwFail duty with
    | Except.error e =>
      (⟨500, [("status", JVal.jstr "error"), ("error", JVal.jstr e)]⟩, st)
    | Except.ok _ =>
      (⟨200, [("status", JVal.jstr "ok"), ("value", JVal.jint value), ("duty", JVal.jrat duty)]⟩,
       ⟨value, st.volume, st.track, st.messages⟩)

/-- `add_message` (lines 152-156): builds `{text, utcnow().isoformat()+"Z"}`
and appends it to the stored list under the lock. -/
def add_message (st : FState) (now : String) (text : String) : Message × FState :=
  let obj : Message := ⟨text, now ++ "Z"⟩
  (obj, ⟨st.brightness, st.volume, st.track, st.messages ++ [obj]⟩)

/-- `add_message_route` (lines 228-240): only `if not text` is checked
(missing or empty string gives 400); any other text is accepted as-is — no
trimming and no length limit — and the created message is returned. -/
def add_message_route (st : FState) (now : String) (text? : Option String) :
    HttpResp × FState :=
  match text? with
  | none => (⟨400, [("status", JVal.jstr "error"), ("error", JVal.jstr "missing text")]⟩, st)
  | some t =>
    if t = "" then
      (⟨400, [("status", JVal.jstr "error"), ("error", JVal.jstr "missing text")]⟩, st)
    else
      let r := add_message st now t
      (⟨200, [("status", JVal.jstr "ok"), ("message", JVal.jmsg r.1)]⟩, r.2)

/-- `get_messages` (lines 243-247): `list(_state["messages"])[-200:]`, the
suffix of at most 200 most recently appended messages. -/
def get_messages (st : FState) : HttpResp :=
  ⟨200, [("messages", JVal.jmsgs (st.messages.drop (st.messages.length - 200)))]⟩

/-- JSON encoding of the optional stored track. -/
def trackJson : Option String → JVal
  | none => JVal.jnull
  | some t => JVal.jstr t

/-- `status` (lines 250-259): snapshot of brightness, volume, track and the
`has_lgpio` flag (only the lgpio flag is reported). -/
def status (sel : DriverSel) (st : FState) : HttpResp :=
  ⟨200, [("brightness", JVal.jint st.brightness), ("volume", JVal.jint st.volume),
         ("track", trackJson st.track), ("has_lgpio", JVal.jbool sel.hasLgpio)]⟩

/-- `set_track` (lines 212-225): missing or empty track gives 400; any other
track string is stored and echoed with 200 — no file-existence check is
performed. -/
def set_track (st : FState) (track? : Option String) : HttpResp × FState :=
  match track? with
  | none => (⟨400, [("status", JVal.jstr "error"), ("error", JVal.jstr "missing track")]⟩, st)
  | some t =>
    if t = "" then
      (⟨400, [("status", JVal.jstr "error"), ("error", JVal.jstr "missing track")]⟩, st)
    else
      (⟨200, [("status", JVal.jstr "ok"), ("track", JVal.jstr t)]⟩,
       ⟨st.brightness, st.volume, some t, st.messages⟩)

end Functional

/-! ## Helper lemmas -/

/-- `set_pwm_duty_percent` swallows every hardware failure: it always
returns `Except.ok`, for every driver selection and every outcome of the
underlying hardware write. -/
theorem set_pwm_ok (sel : Functional.DriverSel) (hwFail : Bool) (percent : Rat) :
    ∃ r, Functional.set_pwm_duty_percent sel hwFail percent = Except.ok r := by
  unfold Functional.set_pwm_duty_percent Functional.tx_pwm
  cases hwFail <;> simp
  split
  · simp
  · split <;> simp

/-! ## Claims -/

/-- C5: Startup driver selection always succeeds (it is a total function of
the probe outcomes) and yields exactly one active backend: lgpio is active
exactly when its import and initialization both succeed, RPi.GPIO exactly
when lgpio is not active and its own probe succeeds, dry-run otherwise; at
most one of the two hardware flags is true, and the handles are held exactly
by the active hardware backend. -/
theorem C5_driver_selection (p : Functional.Probes) :
    ¬((Functional.selectDriver p).hasLgpio = true ∧
      (Functional.selectDriver p).hasRpiGpio = true) ∧
    (Functional.selectDriver p).hasLgpio = (p.lgpioImport && p.lgpioInit) ∧
    (Functional.selectDriver p).hasRpiGpio = (!(p.lgpioImport && p.lgpioInit) && p.rpiInit) ∧
    (Functional.selectDriver p).chip.isSome = (Functional.selectDriver p).hasLgpio ∧
    (Functional.selectDriver p).pwm.isSome = (Functional.selectDriver p).hasRpiGpio ∧
    Functional.activeDriver (Functional.selectDriver p) =
      (if p.lgpioImport && p.lgpioInit then Functional.Driver.lgpio
       else if p.rpiInit then Functional.Driver.rpiGpio
       else Functional.Driver.dryRun) := by
  obtain ⟨a, b, c⟩ := p
  cases a <;> cases b <;> cases c <;> decide

/-- C4: A failure of the hardware apply call never escapes
`set_pwm_duty_percent`, so for every driver selection and every hardware
outcome a brightness request with a present value still returns HTTP 200
and still updates the stored brightness to the clamped value. -/
theorem C4_hw_failure_absorbed (sel : Functional.DriverSel) (hwFail : Bool)
    (st : Functional.FState) (v : Int) (p : Rat) :
    (∃ r, Functional.set_pwm_duty_percent sel hwFail p = Except.ok r) ∧
    (Functional.set_brightness sel hwFail st (some v)).1.code = 200 ∧
    (Functional.set_brightness sel hwFail st (some v)).2.brightness =
      Functional.clamp255 v := by
  refine ⟨set_pwm_ok sel hwFail p, ?_⟩
  obtain ⟨r, hr⟩ := set_pwm_ok sel hwFail (((Functional.clamp255 v : Int) : Rat) / 255 * 100)
  simp [Functional.set_brightness, hr]

/-- C10: `load_messages` is total on every file state: absent, unreadable
and malformed files, and documents without a `messages` key, all yield the
empty list; a parsed document with a `messages` list yields that list; and
`get_messages` on a corrupt file consequently answers 200 with an empty
message list rather than an error. -/
theorem C10_load_total :
    Basic.load_messages Basic.FileState.absent = [] ∧
    Basic.load_messages Basic.FileState.unreadable = [] ∧
    Basic.load_messages Basic.FileState.malformed = [] ∧
    Basic.load_messages (Basic.FileState.parsed ⟨none⟩) = [] ∧
    (∀ l, Basic.load_messages (Basic.FileState.parsed ⟨some l⟩) = l) ∧
    Basic.get_messages Basic.FileState.malformed =
      ⟨200, [("messages", JVal.jmsgs [])]⟩ :=
  ⟨rfl, rfl, rfl, rfl, fun _ => rfl, rfl⟩

/-- C1 (amended): In the FUNCTIONAL variant the duty percent computed and
applied by set-brightness equals `(clamp(v,0,255)/255)*100`: 0 at 0, 100 at
255, monotonic non-decreasing, linear on [0,255], and clamped outside
(v = -10 yields 0, v = 9999 yields 100); the basic variant (src/app.py)
performs no clamping. -/
theorem C1_duty_mapping (v w : Int) (hvw : v ≤ w) :
    Functional.duty_percent v ≤ Functional.duty_percent w ∧
    Functional.duty_percent 0 = 0 ∧
    Functional.duty_percent 255 = 100 ∧
    Functional.duty_percent (-10) = 0 ∧
    Functional.duty_percent 9999 = 100 ∧
    (0 ≤ v → v ≤ 255 → Functional.duty_percent v = (v : Rat) / 255 * 100) ∧
    (∀ sel hw st, (Functional.set_brightness sel hw st (some v)).1 =
      ⟨200, [("status", JVal.jstr "ok"), ("value", JVal.jint (Functional.clamp255 v)),
             ("duty", JVal.jrat (Functional.duty_percent v))]⟩) := by
  have e0 : Functional.clamp255 0 = 0 := by unfold Functional.clamp255; decide
  have e255 : Functional.clamp255 255 = 255 := by unfold Functional.clamp255; decide
  have em10 : Functional.clamp255 (-10) = 0 := by unfold Functional.clamp255; decide
  have e9999 : Functional.clamp255 9999 = 255 := by unfold Functional.clamp255; decide
  refine ⟨?_,
    by unfold Functional.duty_percent; rw [e0]; norm_num,
    by unfold Functional.duty_percent; rw [e255]; norm_num,
    by unfold Functional.duty_percent; rw [em10]; norm_num,
    by unfold Functional.duty_percent; rw [e9999]; norm_num,
    ?_, ?_⟩
  · have h1 : Functional.clamp255 v ≤ Functional.clamp255 w :=
      max_le_max le_rfl (min_le_min le_rfl hvw)
    unfold Functional.duty_percent
    gcongr
  · intro h0 h255
    have h : Functional.clamp255 v = v := by
      unfold Functional.clamp255
      omega
    unfold Functional.duty_percent
    rw [h]
  · intro sel hw st
    obtain ⟨r, hr⟩ := set_pwm_ok sel hw (((Functional.clamp255 v : Int) : Rat) / 255 * 100)
    simp [Functional.set_brightness, Functional.duty_percent, hr]

/-- C1 witness: the hypotheses of `C1_duty_mapping` hold at v = 3, w = 5. -/
theorem C1_duty_mapping_witness :
    Functional.duty_percent 3 ≤ Functional.duty_percent 5 ∧
    Functional.duty_percent 3 = (3 : Rat) / 255 * 100 :=
  ⟨(C1_duty_mapping 3 5 (by decide)).1,
   (C1_duty_mapping 3 5 (by decide)).2.2.2.2.2.1 (by decide) (by decide)⟩

/-- C1 counterexample: the basic variant does not clamp before scaling:
value -10 yields duty -200/51 (not 0) and value 9999 yields 66660/17
(not 100), so the duty applied is not `(clamp(v,0,255)/255)*100`. -/
theorem C1_basic_no_clamp :
    (Basic.set_brightness (some (-10))).2 = -200 / 51 ∧
    (Basic.set_brightness (some (-10))).2 ≠ 0 ∧
    Functional.duty_percent (-10) = 0 ∧
    (Basic.set_brightness (some 9999)).2 ≠ 100 := by
  have h1 : (Basic.set_brightness (some (-10))).2 = -200 / 51 := by
    show ((-10 : Int) : Rat) / 255 * 100 = -200 / 51
    norm_num
  have h3 : Functional.duty_percent (-10) = 0 := by
    unfold Functional.duty_percent
    rw [show Functional.clamp255 (-10) = 0 from by unfold Functional.clamp255; decide]
    norm_num
  refine ⟨h1, ?_, h3, ?_⟩
  · rw [h1]; norm_num
  · show ((9999 : Int) : Rat) / 255 * 100 ≠ 100
    norm_num

/-- C3 (amended): the FUNCTIONAL variant's get-messages returns the suffix
of at most the 200 most recently appended messages in original append order
(its result is a suffix of the stored sequence of length `min 200 n`); the
basic variant (src/app.py) returns ALL stored messages with no limit. -/
theorem C3_get_messages (st : Functional.FState) :
    Functional.get_messages st =
      ⟨200, [("messages", JVal.jmsgs (st.messages.drop (st.messages.length - 200)))]⟩ ∧
    (st.messages.drop (st.messages.length - 200)).length = min 200 st.messages.length ∧
    (∃ pre, pre ++ st.messages.drop (st.messages.length - 200) = st.messages) ∧
    (∀ d, Basic.get_messages d = ⟨200, [("messages", JVal.jmsgs (Basic.load_messages d))]⟩) := by
  refine ⟨rfl, ?_,
    ⟨st.messages.take (st.messages.length - 200), List.take_append_drop _ _⟩,
    fun _ => rfl⟩
  rw [List.length_drop]
  omega

/-- C3 counterexample: the basic variant's get-messages on a store with 250
appended messages returns all 250 of them, not the last 200. -/
theorem C3_counterexample :
    Basic.get_messages
        (Basic.FileState.parsed ⟨some (List.replicate 250 (⟨"m", "t"⟩ : Message))⟩) =
      ⟨200, [("messages", JVal.jmsgs (List.replicate 250 ⟨"m", "t"⟩))]⟩ ∧
    (List.replicate 250 ((⟨"m", "t"⟩ : Message))).length = 250 :=
  ⟨rfl, by rw [List.length_replicate]⟩

/-- C7 (amended): in the FUNCTIONAL variant a POST /set_brightness body with
no `value` field yields HTTP 400 with the stored state unchanged, and a
present value yields a success response carrying status, the clamped value
and the computed duty, with only the brightness field of the state updated;
the basic variant (src/app.py) instead defaults a missing `value` to 0 and
answers 200. -/
theorem C7_missing_value (sel : Functional.DriverSel) (hw : Bool) (st : Functional.FState) :
    Functional.set_brightness sel hw st none =
      (⟨400, [("status", JVal.jstr "error"), ("error", JVal.jstr "missing value")]⟩, st) ∧
    (∀ v, (Functional.set_brightness sel hw st (some v)).1 =
      ⟨200, [("status", JVal.jstr "ok"), ("value", JVal.jint (Functional.clamp255 v)),
             ("duty", JVal.jrat (Functional.duty_percent v))]⟩ ∧
      (Functional.set_brightness sel hw st (some v)).2 =
        ⟨Functional.clamp255 v, st.volume, st.track, st.messages⟩) := by
  refine ⟨rfl, ?_⟩
  intro v
  obtain ⟨r, hr⟩ := set_pwm_ok sel hw (((Functional.clamp255 v : Int) : Rat) / 255 * 100)
  constructor <;> simp [Functional.set_brightness, Functional.duty_percent, hr]

/-- C7 counterexample: the basic variant answers a body without `value` with
HTTP 200 (treating the value as 0 and applying duty 0), not 400. -/
theorem C7_counterexample :
    (Basic.set_brightness none).1 = ⟨200, [("status", JVal.jstr "ok")]⟩ ∧
    (Basic.set_brightness none).2 = 0 ∧
    (Basic.set_brightness none).1.code ≠ 400 := by
  refine ⟨rfl, ?_, by decide⟩
  show ((0 : Int) : Rat) / 255 * 100 = 0
  norm_num

/-- C2 (amended): the basic variant (src/app.py) rejects text that is empty
after stripping whitespace or longer than 100 characters after stripping
with HTTP 400 and leaves the stored file untouched, and accepts every other
text, appending it with the server timestamp; the FUNCTIONAL variant only
rejects missing or empty (untrimmed) text and imposes no trim and no length
limit. -/
theorem C2_validation (disk : Basic.FileState) (saveOk : Bool) (now : String)
    (text? : Option String) :
    ((Basic.strip (text?.getD "") = "" ∨ 100 < (Basic.strip (text?.getD "")).length) →
      (Basic.add_message disk saveOk now text?).1.code = 400 ∧
      (Basic.add_message disk saveOk now text?).2 = disk) ∧
    (Basic.strip (text?.getD "") ≠ "" → (Basic.strip (text?.getD "")).length ≤ 100 →
      (Basic.add_message disk true now text?).1.code = 200 ∧
      Basic.load_messages (Basic.add_message disk true now text?).2 =
        Basic.load_messages disk ++ [⟨Basic.strip (text?.getD ""), now⟩]) ∧
    (∀ st (u : String), u ≠ "" →
      (Functional.add_message_route st now (some u)).1.code = 200 ∧
      (Functional.add_message_route st now (some u)).2.messages =
        st.messages ++ [⟨u, now ++ "Z"⟩]) := by
  refine ⟨?_, ?_, ?_⟩
  · intro h
    rcases h with h | h <;>
      constructor <;>
      simp [Basic.add_message, h]
  · intro hne hle
    have hlt : ¬(100 < (Basic.strip (text?.getD "")).length) := by omega
    constructor <;> simp [Basic.add_message, Basic.load_messages, hne, hlt]
  · intro st u hu
    constructor <;>
      simp [Functional.add_message_route, Functional.add_message, hu]

/-- C2 witness: the hypotheses of `C2_validation` hold at a one-space text
(rejected by the basic variant) and at the text "hi" (accepted). -/
theorem C2_validation_witness :
    (Basic.add_message Basic.FileState.absent true "t" (some " ")).1.code = 400 ∧
    (Basic.add_message Basic.FileState.absent true "t" (some "hi")).1.code = 200 :=
  ⟨((C2_validation Basic.FileState.absent true "t" (some " ")).1 (Or.inl (by decide))).1,
   ((C2_validation Basic.FileState.absent true "t" (some "hi")).2.1 (by decide) (by decide)).1⟩

/-- C2 counterexample: the FUNCTIONAL variant's add-message accepts a
101-character text (and a lone space, which is empty after trimming) with
HTTP 200 and appends it to the store, instead of rejecting it with 400. -/
theorem C2_counterexample :
    (String.mk (List.replicate 101 'a')).length = 101 ∧
    (Functional.add_message_route Functional.initialState "t"
        (some (String.mk (List.replicate 101 'a')))).1.code = 200 ∧
    (Functional.add_message_route Functional.initialState "t"
        (some (String.mk (List.replicate 101 'a')))).2.messages.length = 1 ∧
    (Functional.add_message_route Functional.initialState "t" (some " ")).1.code = 200 ∧
    Basic.strip " " = "" := by
  refine ⟨by decide, by decide, by decide, by decide, by decide⟩

/-- C6 (amended): the basic variant (src/app.py) answers a set-track request
for a nonexistent file with HTTP 404 and plays nothing (it holds no stored
track); the FUNCTIONAL variant performs no existence check at all: it stores
any non-empty track string and answers 200. -/
theorem C6_track (playResult : Except String Unit) (track : String)
    (st : Functional.FState) (t : String) (ht : t ≠ "") :
    Basic.set_track false playResult track =
      ⟨404, [("status", JVal.jstr "error"), ("message", JVal.jstr "Track not found")]⟩ ∧
    (Functional.set_track st (some t)).1.code = 200 ∧
    (Functional.set_track st (some t)).2.track = some t := by
  refine ⟨rfl, ?_, ?_⟩ <;> simp [Functional.set_track, ht]

/-- C6 witness: the hypotheses of `C6_track` hold at concrete tracks. -/
theorem C6_track_witness :
    Basic.set_track false (Except.ok ()) "x.mp3" =
      ⟨404, [("status", JVal.jstr "error"), ("message", JVal.jstr "Track not found")]⟩ ∧
    (Functional.set_track Functional.initialState (some "y.mp3")).1.code = 200 ∧
    (Functional.set_track Functional.initialState (some "y.mp3")).2.track = some "y.mp3" :=
  C6_track (Except.ok ()) "x.mp3" Functional.initialState "y.mp3" (by decide)

/-- C6 counterexample: the FUNCTIONAL variant's set-track never consults the
file system (its embedding takes no file-system input): "missing.mp3" is
accepted with HTTP 200 and the stored track changes from none to it, instead
of a 404 with the stored track unchanged. -/
theorem C6_counterexample :
    (Functional.set_track Functional.initialState (some "missing.mp3")).1 =
      ⟨200, [("status", JVal.jstr "ok"), ("track", JVal.jstr "missing.mp3")]⟩ ∧
    (Functional.set_track Functional.initialState (some "missing.mp3")).2.track =
      some "missing.mp3" ∧
    Functional.initialState.track = none := by
  decide

/-- C8 (amended): a successful add-message answers with the created Message
carrying the server-generated timestamp, and the stored sequence does grow
by one, but the response contains no `message_count` field: the new total
count is not returned. -/
theorem C8_response (st : Functional.FState) (now t : String) (ht : t ≠ "") :
    (Functional.add_message_route st now (some t)).1 =
      ⟨200, [("status", JVal.jstr "ok"), ("message", JVal.jmsg ⟨t, now ++ "Z"⟩)]⟩ ∧
    (Functional.add_message_route st now (some t)).2.messages.length =
      st.messages.length + 1 ∧
    List.lookup "message_count" (Functional.add_message_route st now (some t)).1.body =
      none := by
  refine ⟨?_, ?_, ?_⟩ <;>
    simp [Functional.add_message_route, Functional.add_message, ht, List.lookup]

/-- C8 witness: the hypotheses of `C8_response` hold at the text "hello". -/
theorem C8_response_witness :
    (Functional.add_message_route Functional.initialState "ts" (some "hello")).1 =
      ⟨200, [("status", JVal.jstr "ok"), ("message", JVal.jmsg ⟨"hello", "ts" ++ "Z"⟩)]⟩ ∧
    (Functional.add_message_route Functional.initialState "ts" (some "hello")).2.messages.length =
      Functional.initialState.messages.length + 1 ∧
    List.lookup "message_count"
        (Functional.add_message_route Functional.initialState "ts" (some "hello")).1.body =
      none :=
  C8_response Functional.initialState "ts" "hello" (by decide)

/-- C8 counterexample: in both variants the success response of add-message
has no `message_count` field, so it does not contain the new total count the
claim requires. -/
theorem C8_counterexample :
    (Basic.add_message Basic.FileState.absent true "t" (some "hi")).1.code = 200 ∧
    List.lookup "message_count"
        (Basic.add_message Basic.FileState.absent true "t" (some "hi")).1.body = none ∧
    (Functional.add_message_route Functional.initialState "t" (some "hi")).1.code = 200 ∧
    List.lookup "message_count"
        (Functional.add_message_route Functional.initialState "t" (some "hi")).1.body =
      none := by
  refine ⟨by decide, by decide, by decide, by decide⟩

/-- C9 (amended): the status operation returns a point-in-time snapshot of
the stored brightness, volume and track together with a `has_lgpio` boolean
that is true exactly when the PRIMARY (lgpio) driver is active — not when
any physical driver is: the RPi.GPIO fallback also reports false, as does
dry-run — and the response has no `has_hardware` field. -/
theorem C9_status (p : Functional.Probes) (st : Functional.FState) :
    Functional.status (Functional.selectDriver p) st =
      ⟨200, [("brightness", JVal.jint st.brightness), ("volume", JVal.jint st.volume),
             ("track", Functional.trackJson st.track),
             ("has_lgpio", JVal.jbool (p.lgpioImport && p.lgpioInit))]⟩ ∧
    ((p.lgpioImport && p.lgpioInit) = true ↔
      Functional.activeDriver (Functional.selectDriver p) = Functional.Driver.lgpio) ∧
    List.lookup "has_hardware" (Functional.status (Functional.selectDriver p) st).body =
      none := by
  obtain ⟨a, b, c⟩ := p
  cases a <;> cases b <;> cases c <;> exact ⟨rfl, by decide, rfl⟩

/-- C9 counterexample: when the lgpio probe fails and the RPi.GPIO probe
succeeds, a physical (fallback) driver is active, yet the status snapshot
reports `has_lgpio = false` — and carries no `has_hardware` field at all —
so the reported boolean is not "true iff a physical driver is active". -/
theorem C9_counterexample :
    Functional.activeDriver (Functional.selectDriver ⟨false, false, true⟩) =
      Functional.Driver.rpiGpio ∧
    List.lookup "has_lgpio"
        (Functional.status (Functional.selectDriver ⟨false, false, true⟩)
          Functional.initialState).body = some (JVal.jbool false) ∧
    List.lookup "has_hardware"
        (Functional.status (Functional.selectDriver ⟨false, false, true⟩)
          Functional.initialState).body = none := by
  decide
